import Mathlib

/-!
Shallow embedding of the llm-playground service (FastAPI app wrapping an
OpenAI-compatible chat-completion client) and proofs of its specification
claims.

Source files embedded:
- app/services/llm_client.py : class LLMClient (aenter, aexit, generate),
  get_llm_client
- app/api/routes.py          : generate_response (the /generate handler)
- app/schemas/prompt.py      : PromptRequest, PromptResponse
- app/core/config.py         : Settings (pydantic BaseSettings)

Modelling conventions:
- JSON documents are the inductive `Json`; Python subscripting on them
  (`data["choices"][0]["message"]["content"]`) is `Json.getKey` and
  `Json.getIdx`, which return the Python error class the operation raises
  (KeyError, IndexError, TypeError) in the `Except` error position.
- The single upstream HTTP exchange of a `generate` call is an oracle value
  `UpstreamOutcome`: either a response with a status code and a body (whose
  JSON parse may fail) or a transport failure, the cases httpx distinguishes.
- Python exceptions crossing the client boundary are `PyExc`; both the
  precondition error and the normalized upstream errors are
  `PyExc.runtimeError` because the source raises RuntimeError for both.
- Network and connection side effects are reified as event lists
  (`NetEvent`, `ConnEvent`) returned alongside results, so that claims about
  "zero network calls" and "released exactly once" are statements about
  those lists.
-/

/-- JSON values, the shape of request and response bodies. -/
inductive Json where
  | str (s : String)
  | num (n : Int)
  | bool (b : Bool)
  | null
  | arr (xs : List Json)
  | obj (fields : List (String × Json))

/-- Python error classes that subscripting a decoded JSON value can raise. -/
inductive PyErr where
  | keyError
  | indexError
  | typeError
deriving DecidableEq

/-- First-match lookup in a JSON object field list (Python dict lookup). -/
def lookupField : List (String × Json) → String → Option Json
  | [], _ => none
  | (k, v) :: rest, key => if k == key then some v else lookupField rest key

/-- Python `value[key]` for a string key: dict lookup (KeyError when the key
is absent), TypeError on any non-dict value. -/
def Json.getKey : Json → String → Except PyErr Json
  | .obj fields, key =>
    match lookupField fields key with
    | some v => .ok v
    | none => .error .keyError
  | _, _ => .error .typeError

/-- Python `value[i]` for a non-negative int index: list indexing (IndexError
when out of range), string indexing (yields a one-character string), KeyError
on a dict whose keys are strings, TypeError otherwise. -/
def Json.getIdx : Json → Nat → Except PyErr Json
  | .arr xs, i =>
    match xs.get? i with
    | some v => .ok v
    | none => .error .indexError
  | .str s, i =>
    match s.toList.get? i with
    | some ch => .ok (.str (String.singleton ch))
    | none => .error .indexError
  | .obj _, _ => .error .keyError
  | _, _ => .error .typeError

/-- The extraction `data["choices"][0]["message"]["content"]` performed by
`LLMClient.generate` (llm_client.py line 68), with Python subscripting
semantics. -/
def extractContent (data : Json) : Except PyErr Json :=
  match data.getKey "choices" with
  | .error e => .error e
  | .ok choices =>
    match choices.getIdx 0 with
    | .error e => .error e
    | .ok c0 =>
      match c0.getKey "message" with
      | .error e => .error e
      | .ok msg => msg.getKey "content"

/-- The request payload built by `generate` (llm_client.py lines 59-62). -/
def buildPayload (model prompt : String) : Json :=
  .obj [("model", .str model),
        ("messages", .arr [.obj [("role", .str "user"),
                                 ("content", .str prompt)]])]

/-- Application settings (config.py, class Settings). -/
structure Settings where
  llm_api_key : String
  llm_base_url : String
  llm_model : String
  api_timeout : Int
  llm_provider : String

/-- An environment: a list of name-value pairs. -/
def Env := List (String × String)

/-- ASCII lowercasing of an environment variable name, the normalization
pydantic-settings applies for case-insensitive matching. -/
def lowerName (s : String) : String :=
  ⟨s.data.map (fun c =>
    if 65 ≤ c.toNat ∧ c.toNat ≤ 90 then Char.ofNat (c.toNat + 32) else c)⟩

/-- Case-insensitive environment lookup: pydantic-settings with
`case_sensitive=False` compares the lowercased variable name against the
(lowercase) field name. -/
def lookupEnv (env : Env) (name : String) : Option String :=
  match env with
  | [] => none
  | (k, v) :: rest => if lowerName k == name then some v else lookupEnv rest name

/-- `Settings()` evaluated at process start (config.py line 31):
`llm_api_key`, `llm_base_url`, `llm_model` are required and their absence is
a validation error that aborts startup; `api_timeout` parses to an int and
defaults to 60; `llm_provider` defaults to "generic"; variable names are
matched case-insensitively and unknown names are ignored (the loader only
reads the five declared fields, `extra="ignore"`). -/
def loadSettings (env : Env) : Except String Settings :=
  match lookupEnv env "llm_api_key", lookupEnv env "llm_base_url",
        lookupEnv env "llm_model" with
  | some key, some url, some model =>
    let provider := (lookupEnv env "llm_provider").getD "generic"
    match lookupEnv env "api_timeout" with
    | none => .ok ⟨key, url, model, 60, provider⟩
    | some raw =>
      match raw.toInt? with
      | some n => .ok ⟨key, url, model, n, provider⟩
      | none => .error "validation error: api_timeout is not an int"
  | _, _, _ => .error "validation error: missing required field"

/-- The httpx.AsyncClient built by `LLMClient.__aenter__`
(llm_client.py lines 29-36), plus its closed flag (httpx `aclose` is a
no-op once the client is already closed). -/
structure HttpxAsyncClient where
  base_url : String
  authorization : String
  content_type : String
  timeout : Int
  closed : Bool
deriving DecidableEq

/-- The state of an `LLMClient` instance (llm_client.py lines 21-26). -/
structure LLMClientState where
  base_url : String
  api_key : String
  model_name : String
  timeout : Int
  _client : Option HttpxAsyncClient
deriving DecidableEq

/-- `LLMClient.__init__`: copies the process settings, leaves `_client`
unset. `get_llm_client` (llm_client.py lines 77-79) just calls this. -/
def LLMClient.init (s : Settings) : LLMClientState :=
  { base_url := s.llm_base_url
    api_key := s.llm_api_key
    model_name := s.llm_model
    timeout := s.api_timeout
    _client := none }

/-- A connection lifecycle event: the scoped httpx client being opened or
released. -/
inductive ConnEvent where
  | acquire
  | release
deriving DecidableEq

/-- A network side effect: one POST with its path and JSON payload. -/
inductive NetEvent where
  | post (path : String) (payload : Json)

/-- `LLMClient.__aenter__` (llm_client.py lines 28-37): builds the scoped
httpx client with base URL, bearer authorization, JSON content type and the
configured timeout, stores it in `_client`. -/
def LLMClient.aenter (st : LLMClientState) :
    LLMClientState × List ConnEvent :=
  ({ st with
      _client := some
        { base_url := st.base_url
          authorization := "Bearer " ++ st.api_key
          content_type := "application/json"
          timeout := st.timeout
          closed := false } },
   [.acquire])

/-- `LLMClient.__aexit__` (llm_client.py lines 39-41): awaits `aclose` when
`_client` is set; `aclose` releases the connection only when the client is
not already closed. `_client` is not reset to `None`. -/
def LLMClient.aexit (st : LLMClientState) :
    LLMClientState × List ConnEvent :=
  match st._client with
  | none => (st, [])
  | some c =>
    if c.closed then (st, [])
    else ({ st with _client := some { c with closed := true } }, [.release])

/-- Python exceptions that can escape `LLMClient.generate`. -/
inductive PyExc where
  | runtimeError (msg : String)
  | valueError (msg : String)
  | typeError (msg : String)
  | validationError (msg : String)
deriving DecidableEq

/-- What the single upstream HTTP exchange does: either a response arrives
with a status code and a body (whose JSON decode may fail), or the transport
fails (connection refused, DNS failure, timeout) with a message. -/
inductive UpstreamOutcome where
  | response (status : Nat) (body : Except Unit Json)
  | transportError (msg : String)

/-- httpx `Response.raise_for_status` succeeds exactly on 2xx. -/
def isSuccessStatus (status : Nat) : Bool :=
  200 ≤ status && status < 300

/-- `LLMClient.generate` (llm_client.py lines 43-74). Guard: when `_client`
was never set, raise RuntimeError before any network call. A closed client
makes httpx raise RuntimeError before sending. Otherwise exactly one POST to
/v1/chat/completions is issued with the payload of lines 59-62, and the
outcome is mapped by the try/except of lines 64-74: non-2xx status becomes
RuntimeError with the code, transport failure becomes RuntimeError with the
message, KeyError/IndexError during extraction becomes the invalid-format
RuntimeError; a JSON decode failure (ValueError) and a TypeError during
extraction match no except clause and propagate unchanged. -/
def LLMClient.generate (st : LLMClientState) (prompt : String)
    (upstream : UpstreamOutcome) : Except PyExc Json × List NetEvent :=
  match st._client with
  | none =>
    (.error (.runtimeError "LLMClient must be used as an async context manager"),
     [])
  | some c =>
    if c.closed then
      (.error (.runtimeError "Cannot send a request, as the client has been closed."),
       [])
    else
      let sent : List NetEvent :=
        [.post "/v1/chat/completions" (buildPayload st.model_name prompt)]
      match upstream with
      | .transportError msg =>
        (.error (.runtimeError ("Request failed: " ++ msg)), sent)
      | .response status body =>
        if isSuccessStatus status then
          match body with
          | .error _ => (.error (.valueError "JSONDecodeError"), sent)
          | .ok data =>
            match extractContent data with
            | .ok v => (.ok v, sent)
            | .error .keyError =>
              (.error (.runtimeError "Invalid response format from LLM API"), sent)
            | .error .indexError =>
              (.error (.runtimeError "Invalid response format from LLM API"), sent)
            | .error .typeError =>
              (.error (.typeError "subscripting a non-container"), sent)
        else
          (.error (.runtimeError ("LLM API error: " ++ toString status)), sent)

/-- A validated request body (prompt.py, class PromptRequest):
`prompt: str = Field(..., min_length=1)`. -/
structure PromptRequest where
  prompt : String

/-- FastAPI body validation for PromptRequest: the body must be a JSON
object whose `prompt` field is a string of length at least 1; extra fields
are ignored. -/
def parsePromptRequest (body : Json) : Except Unit PromptRequest :=
  match body with
  | .obj fields =>
    match lookupField fields "prompt" with
    | some (.str p) => if 1 ≤ p.length then .ok ⟨p⟩ else .error ()
    | _ => .error ()
  | _ => .error ()

/-- What the route returns to the HTTP layer: a 200 body, an HTTPException
with status and detail, or a FastAPI validation rejection (the handler body
never ran). -/
inductive HandlerResult where
  | ok (response : String)
  | httpError (status : Nat) (detail : String)
  | validationError
deriving DecidableEq

/-- The except clauses of `generate_response` (routes.py lines 23-32):
`except RuntimeError` maps to HTTP 502 with `str(e)` as detail, the
catch-all `except Exception` maps to HTTP 500 with the fixed generic
detail. -/
def mapException (e : PyExc) : HandlerResult :=
  match e with
  | .runtimeError msg => .httpError 502 msg
  | _ => .httpError 500 "Internal server error"

/-- Everything one handled request did. -/
structure RouteOutcome where
  result : HandlerResult
  connEvents : List ConnEvent
  netEvents : List NetEvent

/-- `generate_response` (routes.py lines 9-32), including the FastAPI
validation step that precedes it. On a valid body: build the client
(`get_llm_client`, no I/O), enter the async context, call `generate`, wrap a
string result in PromptResponse (a non-string result fails PromptResponse
validation inside the `async with` body and reaches the catch-all clause);
`__aexit__` runs on every exit path of the `async with` block; exceptions are
then mapped by the except clauses. -/
def generate_response (s : Settings) (body : Json)
    (upstream : UpstreamOutcome) : RouteOutcome :=
  match parsePromptRequest body with
  | .error _ => ⟨.validationError, [], []⟩
  | .ok req =>
    let client := LLMClient.init s
    let entered := LLMClient.aenter client
    let gen := LLMClient.generate entered.1 req.prompt upstream
    let exited := LLMClient.aexit entered.1
    match gen.1 with
    | .ok (.str r) => ⟨.ok r, entered.2 ++ exited.2, gen.2⟩
    | .ok _ =>
      ⟨mapException (.validationError "PromptResponse"), entered.2 ++ exited.2, gen.2⟩
    | .error e => ⟨mapException e, entered.2 ++ exited.2, gen.2⟩

/-- The malformed-response shapes named by claim C3: on a JSON object body,
the `choices` key is absent, or `choices` is the empty sequence, or the
first choice lacks the `message` key, or the message lacks the `content`
key. -/
def missingShape (body : Json) : Prop :=
  (∃ fields, body = .obj fields ∧ lookupField fields "choices" = none) ∨
  (∃ fields, body = .obj fields ∧
     lookupField fields "choices" = some (.arr [])) ∨
  (∃ fields c0fs rest, body = .obj fields ∧
     lookupField fields "choices" = some (.arr (.obj c0fs :: rest)) ∧
     lookupField c0fs "message" = none) ∨
  (∃ fields c0fs rest mfs, body = .obj fields ∧
     lookupField fields "choices" = some (.arr (.obj c0fs :: rest)) ∧
     lookupField c0fs "message" = some (.obj mfs) ∧
     lookupField mfs "content" = none)

/-- A concrete settings value used by witnesses. -/
def sampleSettings : Settings :=
  ⟨"sk-test", "https://api.example.com", "test-model", 60, "generic"⟩

/-! ## Helper lemmas -/

/-- A non-empty string has length at least 1. -/
theorem one_le_length_of_ne_empty (P : String) (h : P ≠ "") : 1 ≤ P.length := by
  cases P with
  | mk data =>
    cases data with
    | nil => exact absurd rfl h
    | cons a l => simp [String.length]

/-- Body validation accepts exactly the single-field prompt object when the
prompt has length at least 1. -/
theorem parsePromptRequest_str (P : String) (h : 1 ≤ P.length) :
    parsePromptRequest (.obj [("prompt", .str P)]) = .ok ⟨P⟩ := by
  simp [parsePromptRequest, lookupField, h]

/-- On an opened, not-yet-closed client, `generate` turns a non-2xx status
into the status-carrying RuntimeError. -/
theorem generate_opened_non2xx (st : LLMClientState) (c : HttpxAsyncClient)
    (prompt : String) (status : Nat) (body : Except Unit Json)
    (hopen : st._client = some c) (hlive : c.closed = false)
    (hstatus : isSuccessStatus status = false) :
    (LLMClient.generate st prompt (.response status body)).1
      = .error (.runtimeError ("LLM API error: " ++ toString status)) := by
  unfold LLMClient.generate
  rw [hopen]
  simp [hlive, hstatus]

/-- On an opened, not-yet-closed client, `generate` returns the extracted
content verbatim on a 2xx response whose body yields one. -/
theorem generate_opened_ok (st : LLMClientState) (c : HttpxAsyncClient)
    (prompt : String) (status : Nat) (body : Json) (v : Json)
    (hopen : st._client = some c) (hlive : c.closed = false)
    (hstatus : isSuccessStatus status = true)
    (hbody : extractContent body = .ok v) :
    (LLMClient.generate st prompt (.response status (.ok body))).1 = .ok v := by
  unfold LLMClient.generate
  rw [hopen]
  simp [hlive, hstatus, hbody]

/-- The shapes of `missingShape` make the extraction fail with KeyError or
IndexError. -/
theorem extractContent_missingShape (body : Json) (h : missingShape body) :
    extractContent body = .error .keyError ∨
    extractContent body = .error .indexError := by
  rcases h with ⟨f, rfl, hch⟩ | ⟨f, rfl, hch⟩ |
    ⟨f, c0fs, rest, rfl, hch, hm⟩ | ⟨f, c0fs, rest, mfs, rfl, hch, hm, hc⟩
  · left
    simp [extractContent, Json.getKey, hch]
  · right
    simp [extractContent, Json.getKey, Json.getIdx, hch]
  · left
    simp [extractContent, Json.getKey, Json.getIdx, hch, hm]
  · left
    simp [extractContent, Json.getKey, Json.getIdx, hch, hm, hc]

/-- On an opened, not-yet-closed client, a 2xx response whose body makes the
extraction raise KeyError or IndexError yields the invalid-format
RuntimeError. -/
theorem generate_opened_malformed (st : LLMClientState) (c : HttpxAsyncClient)
    (prompt : String) (status : Nat) (body : Json)
    (hopen : st._client = some c) (hlive : c.closed = false)
    (hstatus : isSuccessStatus status = true)
    (hbody : extractContent body = .error .keyError ∨
             extractContent body = .error .indexError) :
    (LLMClient.generate st prompt (.response status (.ok body))).1
      = .error (.runtimeError "Invalid response format from LLM API") := by
  unfold LLMClient.generate
  rw [hopen]
  rcases hbody with h | h <;> simp [hlive, hstatus, h]

/-- On a valid single-field prompt body, the route runs the full scoped
lifecycle: the result is the mapped generation outcome, the connection is
acquired and released exactly once, and the network events are those of the
one `generate` call. -/
theorem generate_response_valid_eq (s : Settings) (P : String)
    (upstream : UpstreamOutcome) (hP : 1 ≤ P.length) :
    generate_response s (.obj [("prompt", .str P)]) upstream =
      ⟨(match (LLMClient.generate (LLMClient.aenter (LLMClient.init s)).1 P upstream).1 with
        | .ok (.str r) => .ok r
        | .ok _ => .httpError 500 "Internal server error"
        | .error e => mapException e),
       [.acquire, .release],
       (LLMClient.generate (LLMClient.aenter (LLMClient.init s)).1 P upstream).2⟩ := by
  cases upstream with
  | transportError msg =>
    simp [generate_response, parsePromptRequest_str P hP, LLMClient.init,
      LLMClient.aenter, LLMClient.aexit, LLMClient.generate, mapException]
  | response status body =>
    by_cases hs : isSuccessStatus status = true
    · cases body with
      | error u =>
        simp [generate_response, parsePromptRequest_str P hP, LLMClient.init,
          LLMClient.aenter, LLMClient.aexit, LLMClient.generate, mapException, hs]
      | ok data =>
        cases hext : extractContent data with
        | ok v =>
          cases v <;>
            simp [generate_response, parsePromptRequest_str P hP, LLMClient.init,
              LLMClient.aenter, LLMClient.aexit, LLMClient.generate, mapException,
              hs, hext]
        | error e =>
          cases e <;>
            simp [generate_response, parsePromptRequest_str P hP, LLMClient.init,
              LLMClient.aenter, LLMClient.aexit, LLMClient.generate, mapException,
              hs, hext]
    · simp [generate_response, parsePromptRequest_str P hP, LLMClient.init,
        LLMClient.aenter, LLMClient.aexit, LLMClient.generate, mapException, hs]

/-! ## Claims -/

/-- C1: for every non-empty prompt, on an opened client whose upstream call
succeeds (2xx) with a body containing choices[0].message.content = R,
`generate` returns exactly R, unchanged, including R = "" which is a valid
success rather than an error. -/
theorem generate_returns_content_verbatim (st : LLMClientState)
    (c : HttpxAsyncClient) (prompt R : String) (status : Nat) (body : Json)
    (hopen : st._client = some c) (hlive : c.closed = false)
    (hprompt : prompt ≠ "") (hstatus : isSuccessStatus status = true)
    (hbody : extractContent body = .ok (.str R)) :
    (LLMClient.generate st prompt (.response status (.ok body))).1
      = .ok (.str R) :=
  generate_opened_ok st c prompt status body (.str R) hopen hlive hstatus hbody

/-- Witness for C1, at the empty-string response R = "". -/
theorem generate_returns_content_verbatim_witness :
    (LLMClient.generate (LLMClient.aenter (LLMClient.init sampleSettings)).1
        "hello"
        (.response 200 (.ok (.obj [("choices",
          .arr [.obj [("message", .obj [("content", .str "")])]])])))).1
      = .ok (.str "") :=
  generate_returns_content_verbatim
    (LLMClient.aenter (LLMClient.init sampleSettings)).1
    ⟨"https://api.example.com", "Bearer sk-test", "application/json", 60, false⟩
    "hello" "" 200
    (.obj [("choices", .arr [.obj [("message", .obj [("content", .str "")])]])])
    rfl rfl (by decide) (by decide) (by rfl)

/-- C2: on an opened client, a non-2xx upstream status makes `generate` fail
with the unified RuntimeError carrying the numeric status code, and the
request handler surfaces that failure as HTTP 502. -/
theorem generate_non2xx_unified_error_and_502 (s : Settings)
    (st : LLMClientState) (c : HttpxAsyncClient) (P : String) (status : Nat)
    (body : Except Unit Json)
    (hopen : st._client = some c) (hlive : c.closed = false)
    (hP : P ≠ "") (hstatus : isSuccessStatus status = false) :
    (LLMClient.generate st P (.response status body)).1
      = .error (.runtimeError ("LLM API error: " ++ toString status))
    ∧ (generate_response s (.obj [("prompt", .str P)])
        (.response status body)).result
      = .httpError 502 ("LLM API error: " ++ toString status) := by
  refine ⟨generate_opened_non2xx st c P status body hopen hlive hstatus, ?_⟩
  have hg := generate_opened_non2xx (LLMClient.aenter (LLMClient.init s)).1
    ⟨s.llm_base_url, "Bearer " ++ s.llm_api_key, "application/json",
     s.api_timeout, false⟩
    P status body rfl rfl hstatus
  rw [generate_response_valid_eq s P (.response status body)
    (one_le_length_of_ne_empty P hP)]
  simp [hg, mapException]

/-- Witness for C2, at status 429. -/
theorem generate_non2xx_unified_error_and_502_witness :
    (LLMClient.generate (LLMClient.aenter (LLMClient.init sampleSettings)).1
        "hi" (.response 429 (.ok (.obj [])))).1
      = .error (.runtimeError "LLM API error: 429")
    ∧ (generate_response sampleSettings (.obj [("prompt", .str "hi")])
        (.response 429 (.ok (.obj [])))).result
      = .httpError 502 "LLM API error: 429" :=
  generate_non2xx_unified_error_and_502 sampleSettings
    (LLMClient.aenter (LLMClient.init sampleSettings)).1
    ⟨"https://api.example.com", "Bearer sk-test", "application/json", 60, false⟩
    "hi" 429 (.ok (.obj [])) rfl rfl (by decide) (by decide)

/-- C3: on an opened client, a 2xx response whose body lacks a non-empty
choices sequence with a message.content field (empty choices, or the key
choices, message or content absent) makes `generate` fail with the unified
RuntimeError signaling malformed response shape. -/
theorem generate_malformed_shape_invalid_format (st : LLMClientState)
    (c : HttpxAsyncClient) (prompt : String) (status : Nat) (body : Json)
    (hopen : st._client = some c) (hlive : c.closed = false)
    (hstatus : isSuccessStatus status = true) (hshape : missingShape body) :
    (LLMClient.generate st prompt (.response status (.ok body))).1
      = .error (.runtimeError "Invalid response format from LLM API") :=
  generate_opened_malformed st c prompt status body hopen hlive hstatus
    (extractContent_missingShape body hshape)

/-- Witness for C3, at an empty choices sequence. -/
theorem generate_malformed_shape_invalid_format_witness :
    (LLMClient.generate (LLMClient.aenter (LLMClient.init sampleSettings)).1
        "hi" (.response 200 (.ok (.obj [("choices", .arr [])])))).1
      = .error (.runtimeError "Invalid response format from LLM API") :=
  generate_malformed_shape_invalid_format
    (LLMClient.aenter (LLMClient.init sampleSettings)).1
    ⟨"https://api.example.com", "Bearer sk-test", "application/json", 60, false⟩
    "hi" 200 (.obj [("choices", .arr [])]) rfl rfl (by decide)
    (Or.inr (Or.inl ⟨[("choices", .arr [])], rfl, rfl⟩))

/-- C4 counterexample: the handler maps the client-misuse precondition error
(raised as RuntimeError by llm_client.py line 57) to 502, not to 500 as the
claim states, because the except clause of routes.py line 23 catches every
RuntimeError. -/
theorem mapException_precondition_is_502_not_500 :
    mapException (.runtimeError
        "LLMClient must be used as an async context manager")
      = .httpError 502 "LLMClient must be used as an async context manager"
    ∧ mapException (.runtimeError
        "LLMClient must be used as an async context manager")
      ≠ .httpError 500 "Internal server error" :=
  ⟨rfl, by decide⟩

/-- C4 amended: the handler maps every failure raised as RuntimeError — which
covers the unified upstream-error kind and also the client-misuse
precondition error, since both use RuntimeError — to 502 with the error
message as detail, and every non-RuntimeError failure (for example a JSON
decode failure of a 2xx body) to 500 with the generic detail string. -/
theorem handler_maps_runtimeError_502_else_500 (s : Settings) (P : String)
    (e : PyExc) (hP : P ≠ "") :
    ((∃ m, e = .runtimeError m ∧ mapException e = .httpError 502 m) ∨
      ((∀ m, e ≠ .runtimeError m) ∧
        mapException e = .httpError 500 "Internal server error"))
    ∧ (generate_response s (.obj [("prompt", .str P)])
        (.response 200 (.error ()))).result
      = .httpError 500 "Internal server error"
    ∧ mapException (.runtimeError
        "LLMClient must be used as an async context manager")
      = .httpError 502 "LLMClient must be used as an async context manager" := by
  refine ⟨?_, ?_, rfl⟩
  · cases e with
    | runtimeError m => exact Or.inl ⟨m, rfl, rfl⟩
    | valueError m => exact Or.inr ⟨fun m h => PyExc.noConfusion h, rfl⟩
    | typeError m => exact Or.inr ⟨fun m h => PyExc.noConfusion h, rfl⟩
    | validationError m => exact Or.inr ⟨fun m h => PyExc.noConfusion h, rfl⟩
  · rw [generate_response_valid_eq s P (.response 200 (.error ()))
      (one_le_length_of_ne_empty P hP)]
    have hg : (LLMClient.generate (LLMClient.aenter (LLMClient.init s)).1 P
        (.response 200 (.error ()))).1 = .error (.valueError "JSONDecodeError") := rfl
    simp [hg, mapException]

/-- Witness for C4 amended, at a non-RuntimeError exception. -/
theorem handler_maps_runtimeError_502_else_500_witness :
    ((∃ m, PyExc.valueError "JSONDecodeError" = .runtimeError m ∧
        mapException (PyExc.valueError "JSONDecodeError") = .httpError 502 m) ∨
      ((∀ m, PyExc.valueError "JSONDecodeError" ≠ .runtimeError m) ∧
        mapException (PyExc.valueError "JSONDecodeError")
          = .httpError 500 "Internal server error"))
    ∧ (generate_response sampleSettings (.obj [("prompt", .str "hi")])
        (.response 200 (.error ()))).result
      = .httpError 500 "Internal server error"
    ∧ mapException (.runtimeError
        "LLMClient must be used as an async context manager")
      = .httpError 502 "LLMClient must be used as an async context manager" :=
  handler_maps_runtimeError_502_else_500 sampleSettings "hi"
    (.valueError "JSONDecodeError") (by decide)

/-- C5: calling `generate` on a client on which the async-context entry was
never completed fails fast with the precondition RuntimeError and performs
zero network calls. -/
theorem generate_unopened_fails_fast_no_network (st : LLMClientState)
    (prompt : String) (upstream : UpstreamOutcome)
    (h : st._client = none) :
    LLMClient.generate st prompt upstream
      = (.error (.runtimeError
          "LLMClient must be used as an async context manager"), []) := by
  unfold LLMClient.generate
  rw [h]

/-- Witness for C5, at a freshly constructed client. -/
theorem generate_unopened_fails_fast_no_network_witness :
    LLMClient.generate (LLMClient.init sampleSettings) "hi"
        (.transportError "connection refused")
      = (.error (.runtimeError
          "LLMClient must be used as an async context manager"), []) :=
  generate_unopened_fails_fast_no_network (LLMClient.init sampleSettings)
    "hi" (.transportError "connection refused") rfl

/-- C6: on an opened client, `generate` builds the upstream request body
exactly as the model name with a single user message carrying the prompt,
and issues exactly one POST to /v1/chat/completions per call, on every
outcome (no retries). -/
theorem generate_posts_exactly_once (st : LLMClientState)
    (c : HttpxAsyncClient) (prompt : String) (upstream : UpstreamOutcome)
    (hopen : st._client = some c) (hlive : c.closed = false) :
    (LLMClient.generate st prompt upstream).2
      = [.post "/v1/chat/completions"
          (.obj [("model", .str st.model_name),
                 ("messages", .arr [.obj [("role", .str "user"),
                                          ("content", .str prompt)]])])] := by
  unfold LLMClient.generate buildPayload
  rw [hopen]
  cases upstream with
  | transportError msg => simp [hlive]
  | response status body =>
    by_cases hs : isSuccessStatus status = true
    · cases body with
      | error u => simp [hlive, hs]
      | ok data =>
        cases hext : extractContent data with
        | ok v => simp [hlive, hs, hext]
        | error e => cases e <;> simp [hlive, hs, hext]
    · simp [hlive, hs]

/-- Witness for C6, at a transport failure. -/
theorem generate_posts_exactly_once_witness :
    (LLMClient.generate (LLMClient.aenter (LLMClient.init sampleSettings)).1
        "hi" (.transportError "boom")).2
      = [.post "/v1/chat/completions"
          (.obj [("model", .str "test-model"),
                 ("messages", .arr [.obj [("role", .str "user"),
                                          ("content", .str "hi")]])])] :=
  generate_posts_exactly_once
    (LLMClient.aenter (LLMClient.init sampleSettings)).1
    ⟨"https://api.example.com", "Bearer sk-test", "application/json", 60, false⟩
    "hi" (.transportError "boom") rfl rfl

/-- An entry whose lowercased name differs from the looked-up name does not
affect the lookup. -/
theorem lookupEnv_cons_ne (env : Env) (k v name : String)
    (h : lowerName k ≠ name) :
    lookupEnv ((k, v) :: env) name = lookupEnv env name := by
  simp [lookupEnv, beq_iff_eq, h]

/-- C7: on a handled request with a valid prompt, every exit path (success,
upstream error, transport error, malformed response, or unexpected failure)
acquires the scoped connection once and releases it exactly once; `aexit` is
a no-op when the connection was never opened and releasing twice releases
only once. -/
theorem scoped_connection_released_exactly_once (s : Settings) (P : String)
    (upstream : UpstreamOutcome) (hP : P ≠ "") :
    (generate_response s (.obj [("prompt", .str P)]) upstream).connEvents
       = [.acquire, .release]
    ∧ (∀ st : LLMClientState, st._client = none →
        LLMClient.aexit st = (st, []))
    ∧ (∀ st : LLMClientState,
        (LLMClient.aexit (LLMClient.aexit st).1).2 = []) := by
  refine ⟨?_, ?_, ?_⟩
  · rw [generate_response_valid_eq s P upstream
      (one_le_length_of_ne_empty P hP)]
  · intro st h
    unfold LLMClient.aexit
    rw [h]
  · intro st
    cases h : st._client with
    | none => simp [LLMClient.aexit, h]
    | some c =>
      by_cases hc : c.closed = true
      · simp [LLMClient.aexit, h, hc]
      · simp [LLMClient.aexit, h, hc]

/-- Witness for C7, at a transport failure. -/
theorem scoped_connection_released_exactly_once_witness :
    (generate_response sampleSettings (.obj [("prompt", .str "hi")])
        (.transportError "boom")).connEvents = [.acquire, .release]
    ∧ LLMClient.aexit (LLMClient.init sampleSettings)
        = (LLMClient.init sampleSettings, [])
    ∧ (LLMClient.aexit
        (LLMClient.aexit
          (LLMClient.aenter (LLMClient.init sampleSettings)).1).1).2 = [] := by
  have h := scoped_connection_released_exactly_once sampleSettings "hi"
    (.transportError "boom") (by decide)
  exact ⟨h.1, h.2.1 (LLMClient.init sampleSettings) rfl,
    h.2.2 (LLMClient.aenter (LLMClient.init sampleSettings)).1⟩

/-- C8: settings loading fails when any of llm_api_key, llm_base_url or
llm_model is absent; with the three present and api_timeout absent it
succeeds with the 60-second default; environment names whose lowercased form
is not a declared field are ignored; environment names are matched
case-insensitively. -/
theorem settings_startup_contract (env : Env) :
    ((lookupEnv env "llm_api_key" = none ∨
      lookupEnv env "llm_base_url" = none ∨
      lookupEnv env "llm_model" = none) →
      ∃ m, loadSettings env = .error m)
    ∧ (∀ key url model,
        lookupEnv env "llm_api_key" = some key →
        lookupEnv env "llm_base_url" = some url →
        lookupEnv env "llm_model" = some model →
        lookupEnv env "api_timeout" = none →
        loadSettings env = .ok ⟨key, url, model, 60,
          (lookupEnv env "llm_provider").getD "generic"⟩)
    ∧ (∀ k v, lowerName k ∉ (["llm_api_key", "llm_base_url", "llm_model",
        "api_timeout", "llm_provider"] : List String) →
        loadSettings ((k, v) :: env) = loadSettings env)
    ∧ (∀ v, lookupEnv (("LLM_API_KEY", v) :: env) "llm_api_key" = some v) := by
  refine ⟨?_, ?_, ?_, ?_⟩
  · intro h
    unfold loadSettings
    cases h1 : lookupEnv env "llm_api_key" with
    | none => exact ⟨_, rfl⟩
    | some key =>
      cases h2 : lookupEnv env "llm_base_url" with
      | none => exact ⟨_, rfl⟩
      | some url =>
        cases h3 : lookupEnv env "llm_model" with
        | none => exact ⟨_, rfl⟩
        | some model => rcases h with h | h | h <;> simp_all
  · intro key url model hk hu hm ht
    unfold loadSettings
    rw [hk, hu, hm, ht]
  · intro k v hk
    simp only [List.mem_cons, List.not_mem_nil, or_false, not_or] at hk
    obtain ⟨h1, h2, h3, h4, h5⟩ := hk
    unfold loadSettings
    rw [lookupEnv_cons_ne env k v _ h1, lookupEnv_cons_ne env k v _ h2,
      lookupEnv_cons_ne env k v _ h3, lookupEnv_cons_ne env k v _ h4,
      lookupEnv_cons_ne env k v _ h5]
  · intro v
    simp [lookupEnv, show lowerName "LLM_API_KEY" = "llm_api_key" from by decide]

/-- Witness for C8. -/
theorem settings_startup_contract_witness :
    (∃ m, loadSettings [] = .error m)
    ∧ loadSettings
        [("llm_api_key", "k"), ("llm_base_url", "u"), ("llm_model", "m")]
      = .ok ⟨"k", "u", "m", 60, "generic"⟩
    ∧ loadSettings (("HOME", "root") ::
        [("llm_api_key", "k"), ("llm_base_url", "u"), ("llm_model", "m")])
      = loadSettings
        [("llm_api_key", "k"), ("llm_base_url", "u"), ("llm_model", "m")]
    ∧ lookupEnv [("LLM_API_KEY", "k")] "llm_api_key" = some "k" := by
  have h := settings_startup_contract
    [("llm_api_key", "k"), ("llm_base_url", "u"), ("llm_model", "m")]
  have h0 := settings_startup_contract []
  exact ⟨h0.1 (Or.inl rfl), h.2.1 "k" "u" "m" rfl rfl rfl rfl,
    h.2.2.1 "HOME" "root" (by decide), h0.2.2.2 "k"⟩

/-- C9: a request body whose prompt is the empty string is rejected by input
validation before any client is constructed — zero connection and zero
network events — and every body that validation accepts has a prompt of
length at least 1. -/
theorem empty_prompt_rejected_before_client (s : Settings)
    (upstream : UpstreamOutcome) :
    generate_response s (.obj [("prompt", .str "")]) upstream
      = ⟨.validationError, [], []⟩
    ∧ (∀ body req, parsePromptRequest body = .ok req →
        1 ≤ req.prompt.length) := by
  constructor
  · rfl
  · intro body req h
    unfold parsePromptRequest at h
    split at h
    · split at h
      · split at h
        · cases h
          assumption
        · simp at h
      · simp at h
    · simp at h

/-- Witness for C9. -/
theorem empty_prompt_rejected_before_client_witness :
    generate_response sampleSettings (.obj [("prompt", .str "")])
        (.transportError "x")
      = ⟨.validationError, [], []⟩
    ∧ 1 ≤ (PromptRequest.mk "hi").prompt.length := by
  have h := empty_prompt_rejected_before_client sampleSettings
    (.transportError "x")
  exact ⟨h.1, h.2 (.obj [("prompt", .str "hi")]) ⟨"hi"⟩ rfl⟩

/-- C10: after open and close, the connection handle remains set, so a
subsequent `generate` call does not fail with the must-open-first
precondition error (the guard only checks that open was ever entered). -/
theorem generate_after_close_no_precondition_error (s : Settings)
    (prompt : String) (upstream : UpstreamOutcome) :
    ((LLMClient.aexit (LLMClient.aenter (LLMClient.init s)).1).1)._client.isSome
      = true
    ∧ (LLMClient.generate
        ((LLMClient.aexit (LLMClient.aenter (LLMClient.init s)).1).1)
        prompt upstream).1
      ≠ .error (.runtimeError
          "LLMClient must be used as an async context manager") := by
  constructor
  · rfl
  · intro h
    rw [show (LLMClient.generate
        ((LLMClient.aexit (LLMClient.aenter (LLMClient.init s)).1).1)
        prompt upstream).1
      = .error (.runtimeError
          "Cannot send a request, as the client has been closed.")
      from rfl] at h
    injection h with h1
    injection h1 with h2
    exact absurd h2 (by decide)
